import Mathlib

/-!
Verification development for the ufobeep real-time messaging core.

The definitions below are shallow embeddings of the TypeScript source:
JavaScript numbers that the code only compares and stores are modelled as
rationals (`ℚ`), with a dedicated `JSNum` type where the code's behaviour on
`NaN` / non-number values matters; strings are Lean `String`s (all concrete
inputs used are ASCII, where JS `length` agrees with the character count);
database tables are lists of records; Socket.IO emissions are explicit event
lists; `try/catch` blocks become explicit case analysis on a failure oracle.
-/

/-! ### String helpers (JS `String.prototype.includes` and the regex tests) -/

/-- `startsWithL pat s` : `pat` is a prefix of `s` (on character lists). -/
def startsWithL : List Char → List Char → Bool
  | [], _ => true
  | _ :: _, [] => false
  | p :: ps, c :: cs => p = c && startsWithL ps cs

/-- `containsL pat s` : `pat` occurs as a contiguous substring of `s`. -/
def containsL (pat : List Char) : List Char → Bool
  | [] => startsWithL pat []
  | c :: cs => startsWithL pat (c :: cs) || containsL pat cs

/-- JS `content.includes(pat)`. -/
def includesStr (content pat : String) : Bool :=
  containsL pat.toList content.toList

/-- Length of the run of characters equal to `c` at the head of the list. -/
def runLen (c : Char) : List Char → Nat
  | [] => 0
  | x :: xs => if x = c then runLen c xs + 1 else 0

/-- The regex `/(.)\1{10,}/`: some character repeated at least 11 times in a
row. -/
def hasRepeatRun : List Char → Bool
  | [] => false
  | c :: rest => if 11 ≤ runLen c rest + 1 then true else hasRepeatRun rest

/-- JS `\w` or `\s`: word character (ASCII alphanumeric or underscore) or
whitespace. -/
def isWordOrSpace (c : Char) : Bool :=
  c.isAlphanum || c = '_' || c.isWhitespace

/-- Length of the run of non-word, non-space characters at the head. -/
def specRunLen : List Char → Nat
  | [] => 0
  | c :: cs => if isWordOrSpace c then 0 else specRunLen cs + 1

/-- The regex `/[^\w\s]{5,}/`: at least 5 consecutive special characters. -/
def hasSpecialRun : List Char → Bool
  | [] => false
  | c :: rest =>
    if 5 ≤ specRunLen (c :: rest) then true else hasSpecialRun rest

/-- The regex `/(http|https|www\.)/gi` applied to already-lowercased content:
`https` contains `http`, so the test reduces to these two substrings. -/
def hasUrl (content : String) : Bool :=
  includesStr content "http" || includesStr content "www."

/-- Count of ASCII upper-case characters, JS `desc.match(/[A-Z]/g).length`. -/
def upperCount (s : String) : Nat :=
  (s.toList.filter (fun c => c.isUpper)).length

/-! ### `spamDetection` middleware (src/src/middleware/rateLimiting.ts) -/

/-- The `spamKeywords` array from `spamDetection`. -/
def spamKeywords : List String :=
  ["viagra", "casino", "loan", "bitcoin", "crypto",
   "get rich quick", "make money fast", "click here",
   "limited time offer", "act now", "free money"]

/-- An inbound request as `spamDetection` sees it: `content` is
`JSON.stringify(req.body).toLowerCase()`, `description` is the raw
`req.body.description` field (original case, absent when the body has none),
`action` is `req.route?.path || req.path`. -/
structure SpamRequest where
  ipAddress : String
  action : String
  content : String
  description : Option String
  deriving Repr, DecidableEq

/-- A `SubmissionLog` row (Prisma model with unique key
`ipAddress_action_windowStart`). -/
structure LogRow where
  ipAddress : String
  action : String
  windowStart : Nat
  count : Nat
  createdAt : Nat
  deriving Repr, DecidableEq

/-- Score contribution of the keyword scan: +20 per keyword contained in the
lowercased body. -/
def keywordScore (content : String) : Nat :=
  spamKeywords.foldl (fun acc kw => if includesStr content kw then acc + 20 else acc) 0

/-- Score contribution of the three `suspiciousPatterns`: +15 each. -/
def patternScore (content : String) : Nat :=
  (if hasRepeatRun content.toList then 15 else 0) +
  (if hasSpecialRun content.toList then 15 else 0) +
  (if hasUrl content then 15 else 0)

/-- Score contribution of the `req.body.description` checks: the block is
guarded by JS truthiness (`if (req.body.description)`), so an absent or empty
description contributes nothing; otherwise +10 if shorter than 10, +25 if
longer than 5000, +20 if the upper-case ratio strictly exceeds one half. -/
def descScore (d : Option String) : Nat :=
  match d with
  | none => 0
  | some s =>
    if s = "" then 0
    else
      (if s.length < 10 then 10 else 0) +
      (if 5000 < s.length then 25 else 0) +
      (if s.length < 2 * upperCount s then 20 else 0)

/-- The content-dependent part of `spamScore` (everything except the
submission-frequency check). -/
def contentScore (r : SpamRequest) : Nat :=
  keywordScore r.content + patternScore r.content + descScore r.description

/-- `prisma.submissionLog.findMany` filtered on the ip address and
`createdAt >= now - 1h`, returning the number of rows (JS
`recentSubmissions.length`). Times are in milliseconds. -/
def recentRowCount (rows : List LogRow) (ip : String) (now : Nat) : Nat :=
  (rows.filter (fun row => row.ipAddress = ip && now - 3600000 ≤ row.createdAt)).length

/-- The hour bucket `new Date(Math.floor(now / 3600000) * 3600000)`. -/
def hourBucket (now : Nat) : Nat :=
  now / 3600000 * 3600000

/-- `prisma.submissionLog.upsert` on the unique key
`(ipAddress, action, windowStart)`: increment `count` of the matching row, or
create a fresh row with `count = 1`. -/
def upsertLog (rows : List LogRow) (ip act : String) (now : Nat) : List LogRow :=
  match rows with
  | [] => [⟨ip, act, hourBucket now, 1, now⟩]
  | row :: rest =>
    if row.ipAddress = ip ∧ row.action = act ∧ row.windowStart = hourBucket now then
      { row with count := row.count + 1 } :: rest
    else
      row :: upsertLog rest ip act now

/-- Full `spamScore` of one request against the current log state: content
signals plus +30 when more than 5 recent rows exist for the ip. -/
def spamScore (rows : List LogRow) (r : SpamRequest) (now : Nat) : Nat :=
  contentScore r + (if 5 < recentRowCount rows r.ipAddress now then 30 else 0)

/-- One pass of the `spamDetection` middleware: compute the score from the
pre-existing log rows, upsert the log, then block (`429`) iff the score is at
least 50. Returns the new log state and whether the request was blocked. -/
def spamDetectionStep (rows : List LogRow) (r : SpamRequest) (now : Nat) :
    List LogRow × Bool :=
  let score := spamScore rows r now
  let rows' := upsertLog rows r.ipAddress r.action now
  (rows', decide (50 ≤ score))

/-- Run a sequence of timed requests through `spamDetection`, collecting the
block decision of each. -/
def runSpamSeq (rows : List LogRow) : List (SpamRequest × Nat) → List LogRow × List Bool
  | [] => (rows, [])
  | (r, t) :: rest =>
    let step := spamDetectionStep rows r t
    let tail := runSpamSeq step.1 rest
    (tail.1, step.2 :: tail.2)

example : keywordScore "loan" = 20 := by decide
example : hasRepeatRun "aaaaaaaaaaa".toList = true := by decide
example : hasRepeatRun "aaaaaaaaaa".toList = false := by decide
example : hasSpecialRun "ab!!!!!cd".toList = true := by decide
example : hasSpecialRun "a!!!!b".toList = false := by decide

/-! ### Socket layer data model (src/unnamed/part_010, socketService) -/

/-- A JavaScript number-ish value as received on the wire or stored in a
float column: a finite number, `NaN` (which has `typeof === 'number'` but
compares false against everything), or a non-number value. -/
inductive JSNum where
  | num (q : ℚ)
  | nan
  | undef
  deriving Repr, DecidableEq

/-- JS `typeof v === 'number'` — true for finite numbers and `NaN`. -/
def isNumberType : JSNum → Bool
  | .num _ => true
  | .nan => true
  | .undef => false

/-- JS `v < b` against a finite bound: false whenever `v` is `NaN` (the
non-number case is unreachable behind the `typeof` guard, where JS would
also yield false). -/
def jlt : JSNum → ℚ → Bool
  | .num q, b => decide (q < b)
  | _, _ => false

/-- JS `v > b` against a finite bound, same conventions as `jlt`. -/
def jgt : JSNum → ℚ → Bool
  | .num q, b => decide (b < q)
  | _, _ => false

/-- Finite value of a `JSNum` (only used behind guards that exclude
`nan`/`undef`). -/
def numVal : JSNum → ℚ
  | .num q => q
  | _ => 0

/-- Finite value of an optional stored coordinate. -/
def optNumVal : Option JSNum → ℚ
  | some j => numVal j
  | none => 0

/-- JS truthiness of a stored coordinate (`user.lastLatitude && ...`):
`null`, `0` and `NaN` are all falsy. -/
def truthyNum : Option JSNum → Bool
  | some (.num q) => decide (q ≠ 0)
  | _ => false

/-- The `socket.user` object attached by `socketAuth`. -/
structure SocketUser where
  id : String
  username : Option String
  isAnonymous : Bool
  isAdmin : Bool
  deriving Repr, DecidableEq

/-- A `Sighting` row (fields the socket layer and notifier read). -/
structure Sighting where
  id : String
  isHidden : Bool
  latitude : ℚ
  longitude : ℚ
  deriving Repr, DecidableEq

/-- A `ChatMessage` row. -/
structure ChatMsg where
  message : String
  sightingId : String
  userId : Option String
  anonymousName : Option String
  isHidden : Bool
  createdAt : Nat
  deriving Repr, DecidableEq

/-- A `User` row (fields the location and notification paths read/write). -/
structure User where
  id : String
  isAnonymous : Bool
  enableNotifications : Bool
  lastLatitude : Option JSNum
  lastLongitude : Option JSNum
  notificationRadius : ℚ
  deriving Repr, DecidableEq

/-- Server-to-client emissions, tagged with the receiving socket (or, for
`notificationTo`, the receiving live connection of a user room). -/
inductive SEvent where
  | errorTo (sockId : String) (msg : String)
  | newChatTo (sockId : String) (sightingId : String) (text : String)
  | userJoinedTo (sockId : String) (sightingId : String) (userId : String)
  | historyTo (sockId : String) (sightingId : String) (msgs : List ChatMsg)
  | locationAckTo (sockId : String) (lat lon : JSNum)
  | typingStopTo (sockId : String) (userId : String)
  | notificationTo (connId : String) (sightingId : String)
  | nearbyTo (sockId : String) (count : Nat)
  deriving Repr, DecidableEq

/-- Mutable server state: the backing store tables, the Socket.IO room
membership sets, and the `connectedUsers` map (as a list of socket ids). -/
structure ServerState where
  sightings : List Sighting
  messages : List ChatMsg
  users : List User
  rooms : List (String × List String)
  connected : List String
  deriving Repr, DecidableEq

/-- The Socket.IO room key for a sighting chat. -/
def roomName (sightingId : String) : String := "sighting:" ++ sightingId

/-- Members of a room (empty for an absent room). -/
def roomMembers (rooms : List (String × List String)) (name : String) : List String :=
  match rooms.find? (fun p => p.1 == name) with
  | some p => p.2
  | none => []

/-- `socket.join(room)`: add the socket to the room's member set
(idempotent), creating the room lazily. -/
def joinRoom (rooms : List (String × List String)) (name sockId : String) :
    List (String × List String) :=
  match rooms with
  | [] => [(name, [sockId])]
  | (n, mems) :: rest =>
    if n = name then
      (n, if sockId ∈ mems then mems else mems ++ [sockId]) :: rest
    else (n, mems) :: joinRoom rest name sockId

/-- Transport-level cleanup on disconnect: the socket leaves every room. -/
def leaveAllRooms (rooms : List (String × List String)) (sockId : String) :
    List (String × List String) :=
  rooms.map (fun p => (p.1, p.2.erase sockId))

/-- `prisma.sighting.findUnique({ where: { id } })`. -/
def findSighting (sightings : List Sighting) (sid : String) : Option Sighting :=
  sightings.find? (fun s => s.id == sid)

/-! ### `socketAuth` middleware (src/unnamed/part_009) -/

/-- The synthesized anonymous identity for a socket. -/
def anonymousUser (sockId : String) : SocketUser :=
  ⟨"anonymous_" ++ sockId, none, true, false⟩

/-- `socketAuth`: `getUserFromToken` is the external verifier, returning
a user, `null`, or throwing (`Except.error`). An `.ok (u, b)` result models
calling `next()` with `socket.user = u` and `socket.isAuthenticated = b`;
an `.error` result would model refusing the connection via `next(err)`,
which no path of the source produces. A missing or empty (falsy) token skips
verification outright; a thrown verifier error is caught and also yields the
anonymous identity. -/
def socketAuth (sockId : String) (token : Option String)
    (getUserFromToken : String → Except String (Option SocketUser)) :
    Except String (SocketUser × Bool) :=
  match token with
  | some t =>
    if t ≠ "" then
      match getUserFromToken t with
      | .ok (some u) => .ok (u, true)
      | .ok none => .ok (anonymousUser sockId, false)
      | .error _ => .ok (anonymousUser sockId, false)
    else .ok (anonymousUser sockId, false)
  | none => .ok (anonymousUser sockId, false)

/-! ### Socket event handlers (src/unnamed/part_010) -/

/-- JS `String.prototype.trim`: strip whitespace from both ends (modelled
over the character list, where kernel evaluation is direct). -/
def trimStr (s : String) : String :=
  ⟨((s.toList.dropWhile Char.isWhitespace).reverse.dropWhile Char.isWhitespace).reverse⟩

/-- The `chat_message` payload. -/
structure ChatMessageData where
  sightingId : String
  message : String
  anonymousName : Option String
  deriving Repr, DecidableEq

/-- JS `anonymousName || 'Anonymous'`: an absent or empty (falsy) name falls
back to the default. -/
def orAnonymous (a : Option String) : String :=
  match a with
  | some x => if x = "" then "Anonymous" else x
  | none => "Anonymous"

/-- The row `prisma.chatMessage.create` inserts for a `chat_message`. -/
def newChatMsg (user : SocketUser) (d : ChatMessageData) (now : Nat) : ChatMsg :=
  { message := trimStr d.message
    sightingId := d.sightingId
    userId := if user.isAnonymous then none else some user.id
    anonymousName := if user.isAnonymous then some (orAnonymous d.anonymousName) else none
    isHidden := false
    createdAt := now }

/-- `handleChatMessage`: validate the text (the JS guard
`!message || message.trim().length === 0` is equivalent to the trimmed text
being empty), validate the sighting, store the message, and broadcast
`new_chat_message` to every socket currently in the sighting room
(`io.to(room)` includes the author only if the author is a member). -/
def handleChatMessage (st : ServerState) (sockId : String) (user : SocketUser)
    (d : ChatMessageData) (now : Nat) : ServerState × List SEvent :=
  if trimStr d.message = "" then
    (st, [.errorTo sockId "Message cannot be empty"])
  else if 1000 < d.message.length then
    (st, [.errorTo sockId "Message too long (max 1000 characters)"])
  else
    match findSighting st.sightings d.sightingId with
    | none => (st, [.errorTo sockId "Sighting not found"])
    | some s =>
      if s.isHidden then (st, [.errorTo sockId "Sighting not found"])
      else
        let msg := newChatMsg user d now
        ({ st with messages := st.messages ++ [msg] },
          (roomMembers st.rooms (roomName d.sightingId)).map
            (fun m => .newChatTo m d.sightingId msg.message))

/-- Sort key of the history query: `orderBy: { createdAt: 'desc' }`. -/
def newerOrSame (a b : ChatMsg) : Prop := b.createdAt ≤ a.createdAt

instance : DecidableRel newerOrSame := fun a b => Nat.decLe b.createdAt a.createdAt

instance : IsTotal ChatMsg newerOrSame := ⟨fun a b => Nat.le_total b.createdAt a.createdAt⟩

instance : IsTrans ChatMsg newerOrSame := ⟨fun _ _ _ h1 h2 => Nat.le_trans h2 h1⟩

/-- The history query of `handleJoinSighting`: non-hidden messages of the
sighting, newest first, `take: 50`, then `.reverse()` before emitting. -/
def recentMessages (msgs : List ChatMsg) (sid : String) : List ChatMsg :=
  ((List.insertionSort newerOrSame
      (msgs.filter (fun m => m.sightingId == sid && !m.isHidden))).take 50).reverse

/-- `handleJoinSighting`: reject when the sighting is missing or hidden;
otherwise join the room, emit `user_joined` to the other members
(`socket.to(room)` excludes the sender), and send `chat_history` to the
joiner. -/
def handleJoinSighting (st : ServerState) (sockId : String) (user : SocketUser)
    (sid : String) : ServerState × List SEvent :=
  match findSighting st.sightings sid with
  | none => (st, [.errorTo sockId "Sighting not found"])
  | some s =>
    if s.isHidden then (st, [.errorTo sockId "Sighting not found"])
    else
      ({ st with rooms := joinRoom st.rooms (roomName sid) sockId },
        ((roomMembers st.rooms (roomName sid)).filter (fun m => m != sockId)).map
            (fun m => .userJoinedTo m sid user.id) ++
          [.historyTo sockId sid (recentMessages st.messages sid)])

/-- `prisma.user.update` of the last-known location. -/
def updateUserLoc (users : List User) (uid : String) (lat lon : JSNum) : List User :=
  users.map (fun u =>
    if u.id = uid then { u with lastLatitude := some lat, lastLongitude := some lon } else u)

/-- `handleLocationUpdate`: anonymous sockets return silently; a value that
is not number-typed, or a finite value outside the range, draws the
`Invalid coordinates` error; otherwise the coordinates are stored and, after
the `checkNearbyNotifications` query (a read-only call into the absent
`geoUtils` module whose emissions are passed in opaquely as `nearbyEvents`
and whose own errors are swallowed), the update is acknowledged. -/
def handleLocationUpdate (st : ServerState) (sockId : String) (user : SocketUser)
    (lat lon : JSNum) (nearbyEvents : List SEvent) : ServerState × List SEvent :=
  if user.isAnonymous then (st, [])
  else if !isNumberType lat || !isNumberType lon ||
      jlt lat (-90) || jgt lat 90 || jlt lon (-180) || jgt lon 180 then
    (st, [.errorTo sockId "Invalid coordinates"])
  else
    ({ st with users := updateUserLoc st.users user.id lat lon },
      nearbyEvents ++ [.locationAckTo sockId lat lon])

/-- `handleTypingStop`: fan `user_stopped_typing` out to the other members of
the room (`socket.to(room)` excludes the sender); no state change. -/
def handleTypingStop (st : ServerState) (sockId : String) (user : SocketUser)
    (sid : String) : List SEvent :=
  ((roomMembers st.rooms (roomName sid)).filter (fun m => m != sockId)).map
    (fun m => .typingStopTo m user.id)

/-- `handleDisconnect`: the handler body only deletes the socket from the
`connectedUsers` map and logs; removal from every room is Socket.IO's
transport-level cleanup of a disconnected socket. No event is emitted to
anyone. -/
def handleDisconnect (st : ServerState) (sockId : String) : ServerState × List SEvent :=
  ({ st with connected := st.connected.erase sockId,
             rooms := leaveAllRooms st.rooms sockId }, [])

/-! ### `notifyNearbyUsers` (src/src/services/notificationService.ts) -/

/-- The `prisma.user.findMany` filter: registered users with notifications
enabled and non-null stored coordinates. -/
def findNotifiable (users : List User) : List User :=
  users.filter (fun u => !u.isAnonymous && u.enableNotifications
    && u.lastLatitude.isSome && u.lastLongitude.isSome)

/-- Result of one notification pass: the per-connection deliveries (a push to
the `user:<id>` room reaches every live connection of that user), the list of
notified user ids, and the function's return value. -/
structure NotifyResult where
  delivered : List SEvent
  notifiedUsers : List String
  returned : Nat
  deriving Repr, DecidableEq

/-- The candidate loop of `notifyNearbyUsers`. `calcDist` is
`geoUtils.calculateDistance` (an external collaborator from the absent
`src/utils/database.ts`); `pushOk u` tells whether the Socket.IO emit for
user `u` succeeds — a throw propagates to the single `try/catch` wrapping the
whole pass, which returns `0`, so the remaining candidates are skipped while
the deliveries already made stand. The JS guard
`user.lastLatitude && user.lastLongitude` skips null, `0` and `NaN`
coordinates before any distance is computed. -/
def notifyLoop (calcDist : ℚ → ℚ → ℚ → ℚ → ℚ) (pushOk : String → Bool)
    (conns : String → List String) (s : Sighting) :
    List User → List SEvent → List String → Nat → NotifyResult
  | [], evts, notified, cnt => ⟨evts, notified, cnt⟩
  | u :: rest, evts, notified, cnt =>
    if truthyNum u.lastLatitude && truthyNum u.lastLongitude then
      if calcDist s.latitude s.longitude (optNumVal u.lastLatitude) (optNumVal u.lastLongitude)
          ≤ u.notificationRadius then
        if pushOk u.id then
          notifyLoop calcDist pushOk conns s rest
            (evts ++ (conns u.id).map (fun c => SEvent.notificationTo c s.id))
            (notified ++ [u.id]) (cnt + 1)
        else ⟨evts, notified, 0⟩
      else notifyLoop calcDist pushOk conns s rest evts notified cnt
    else notifyLoop calcDist pushOk conns s rest evts notified cnt

/-- `notifyNearbyUsers`: query the notifiable users, then run the loop. -/
def notifyNearbyUsers (calcDist : ℚ → ℚ → ℚ → ℚ → ℚ) (pushOk : String → Bool)
    (conns : String → List String) (users : List User) (s : Sighting) : NotifyResult :=
  notifyLoop calcDist pushOk conns s (findNotifiable users) [] [] 0

/-! ### Geospatial matcher -/

/-- A coordinate pair for the matcher, over the reals. -/
structure GeoPoint where
  lat : ℝ
  lon : ℝ

/-- Valid latitude range. -/
def validLat (x : ℝ) : Prop := -90 ≤ x ∧ x ≤ 90

/-- Valid longitude range. -/
def validLon (x : ℝ) : Prop := -180 ≤ x ∧ x ≤ 180

/-- Degrees to radians. -/
noncomputable def toRad (d : ℝ) : ℝ := d * Real.pi / 180

/-- The haversine of an angle. -/
noncomputable def hav (x : ℝ) : ℝ := Real.sin (x / 2) ^ 2

/-- The haversine-formula intermediate
`sin²(Δφ/2) + cos φ₁ · cos φ₂ · sin²(Δλ/2)`. -/
noncomputable def haverTerm (a b : GeoPoint) : ℝ :=
  hav (toRad (b.lat - a.lat)) +
    Real.cos (toRad a.lat) * Real.cos (toRad b.lat) * hav (toRad (b.lon - a.lon))

/-- Modelled from the spec: the repository's own distance function,
`geoUtils.calculateDistance` in `src/utils/database.ts`, is not included in
the source tree (the SQL `calculate_distance` of the database init script
delegates to the external PostGIS `ST_Distance`); the spec (§4.1) prescribes
the great-circle distance via the haversine formula with Earth radius
6371 km, `d = 2R·arcsin(√h)`. -/
noncomputable def distanceKm (a b : GeoPoint) : ℝ :=
  2 * 6371 * Real.arcsin (Real.sqrt (haverTerm a b))

/-- Modelled from the spec: `isWithinRadius(origin, candidate, radiusKm)` is
true iff `distanceKm <= radiusKm` (§4.1); the in-tree SQL
`find_nearby_sightings` keeps exactly the rows with
`calculate_distance(...) <= radius_km`. -/
def isWithinRadius (a b : GeoPoint) (r : ℝ) : Prop := distanceKm a b ≤ r

theorem hav_neg (x : ℝ) : hav (-x) = hav x := by
  simp [hav, neg_div]

theorem haverTerm_comm (a b : GeoPoint) : haverTerm a b = haverTerm b a := by
  unfold haverTerm
  have h1 : toRad (a.lat - b.lat) = -(toRad (b.lat - a.lat)) := by unfold toRad; ring
  have h2 : toRad (a.lon - b.lon) = -(toRad (b.lon - a.lon)) := by unfold toRad; ring
  rw [h1, h2, hav_neg, hav_neg]
  ring

theorem haverTerm_self (a : GeoPoint) : haverTerm a a = 0 := by
  simp [haverTerm, hav, toRad]

/-- C9: for all valid coordinate pairs `a`, `b`, the distance function
satisfies `distanceKm a a = 0` and `distanceKm a b = distanceKm b a`, and
`isWithinRadius a b r` holds exactly when `r ≥ distanceKm a b` and fails
when `r < distanceKm a b`. -/
theorem C9_distance_algebra (a b : GeoPoint)
    (h₁ : validLat a.lat) (h₂ : validLon a.lon)
    (h₃ : validLat b.lat) (h₄ : validLon b.lon) :
    distanceKm a a = 0 ∧ distanceKm a b = distanceKm b a ∧
      ∀ r : ℝ, (isWithinRadius a b r ↔ r ≥ distanceKm a b) ∧
        (r < distanceKm a b → ¬ isWithinRadius a b r) := by
  refine ⟨?_, ?_, ?_⟩
  · simp [distanceKm, haverTerm_self]
  · unfold distanceKm
    rw [haverTerm_comm]
  · intro r
    constructor
    · exact Iff.rfl
    · intro hr hw
      exact absurd hw (not_le.mpr hr)

/-- Witness for C9 at the concrete pair `(0,0)`, `(0,0)`. -/
theorem C9_distance_algebra_witness :
    distanceKm ⟨0, 0⟩ ⟨0, 0⟩ = 0 :=
  (C9_distance_algebra ⟨0, 0⟩ ⟨0, 0⟩
    (by constructor <;> norm_num [validLat])
    (by constructor <;> norm_num [validLon])
    (by constructor <;> norm_num [validLat])
    (by constructor <;> norm_num [validLon])).1

/-! ### Claim theorems -/

/-- C3: for every handshake, an absent, empty, invalid, or erroring bearer
credential yields an accepted connection carrying the synthesized anonymous
identity; `socketAuth` never refuses a connection (every path produces
`.ok`). -/
theorem C3_auth_never_refuses (sockId : String) (token : Option String)
    (verify : String → Except String (Option SocketUser)) :
    (∃ u b, socketAuth sockId token verify = .ok (u, b)) ∧
    ((token = none ∨ token = some "" ∨
        (∃ t, token = some t ∧ t ≠ "" ∧
          (verify t = .ok none ∨ ∃ e, verify t = .error e))) →
      socketAuth sockId token verify = .ok (anonymousUser sockId, false)) := by
  constructor
  · match token with
    | none => exact ⟨anonymousUser sockId, false, rfl⟩
    | some t =>
      by_cases ht : t = ""
      · exact ⟨anonymousUser sockId, false, by simp [socketAuth, ht]⟩
      · cases hv : verify t with
        | ok ou =>
          cases ou with
          | none => exact ⟨anonymousUser sockId, false, by simp [socketAuth, ht, hv]⟩
          | some u => exact ⟨u, true, by simp [socketAuth, ht, hv]⟩
        | error e => exact ⟨anonymousUser sockId, false, by simp [socketAuth, ht, hv]⟩
  · rintro (h | h | ⟨t, ht, hne, hv | ⟨e, hv⟩⟩)
    · subst h; rfl
    · subst h; simp [socketAuth]
    · subst ht; simp [socketAuth, hne, hv]
    · subst ht; simp [socketAuth, hne, hv]

/-- A sample external verifier used to witness C3: it throws on the token
`"bad"` and finds no user otherwise. -/
def verifySample : String → Except String (Option SocketUser) :=
  fun t => if t = "bad" then .error "boom" else .ok none

/-- Witness for C3: an erroring credential still yields an accepted anonymous
connection. -/
theorem C3_auth_never_refuses_witness :
    socketAuth "s1" (some "bad") verifySample = .ok (anonymousUser "s1", false) :=
  (C3_auth_never_refuses "s1" (some "bad") verifySample).2
    (Or.inr (Or.inr ⟨"bad", rfl, by decide, Or.inr ⟨"boom", rfl⟩⟩))

/-- C4: an inbound chat message whose text is empty (or whitespace) or longer
than 1000 characters, or whose sighting is missing or hidden, is rejected
with a single error event to the author, with no fan-out and the state
unchanged. -/
theorem C4_invalid_chat_rejected (st : ServerState) (sockId : String)
    (user : SocketUser) (d : ChatMessageData) (now : Nat)
    (h : trimStr d.message = "" ∨ 1000 < d.message.length ∨
      findSighting st.sightings d.sightingId = none ∨
      ∃ s, findSighting st.sightings d.sightingId = some s ∧ s.isHidden = true) :
    ∃ e, handleChatMessage st sockId user d now = (st, [SEvent.errorTo sockId e]) := by
  by_cases h1 : trimStr d.message = ""
  · exact ⟨"Message cannot be empty", by simp [handleChatMessage, h1]⟩
  · by_cases h2 : 1000 < d.message.length
    · exact ⟨"Message too long (max 1000 characters)", by simp [handleChatMessage, h1, h2]⟩
    · rcases h with h | h | h | ⟨s, hs, hh⟩
      · exact absurd h h1
      · exact absurd h h2
      · exact ⟨"Sighting not found", by simp [handleChatMessage, h1, h2, h]⟩
      · exact ⟨"Sighting not found", by simp [handleChatMessage, h1, h2, hs, hh]⟩

/-- Witness for C4: an empty message against a live sighting is rejected with
an author-only error and no state change. -/
theorem C4_invalid_chat_rejected_witness :
    ∃ e, handleChatMessage
        ⟨[⟨"s1", false, 0, 0⟩], [], [], [("sighting:s1", ["m1", "m2"])], []⟩
        "a0" ⟨"u9", none, false, false⟩ ⟨"s1", "", none⟩ 7 =
      (⟨[⟨"s1", false, 0, 0⟩], [], [], [("sighting:s1", ["m1", "m2"])], []⟩,
        [SEvent.errorTo "a0" e]) :=
  C4_invalid_chat_rejected _ _ _ _ _ (Or.inl (by decide))

/-- C1 counterexample: an author socket `"a0"` that is not a member of the
sighting room publishes a message whose content the abuse scorer would block
(keyword score 60 ≥ the block threshold 50); `handleChatMessage` neither
requires membership nor consults any scorer: the message is stored and fanned
out to both room members rather than to zero members with a block error. -/
theorem C1_chat_publish_counterexample :
    keywordScore "casino loan bitcoin" = 60 ∧
    50 ≤ keywordScore "casino loan bitcoin" ∧
    "a0" ∉ roomMembers [("sighting:s1", ["m1", "m2"])] (roomName "s1") ∧
    handleChatMessage
        ⟨[⟨"s1", false, 0, 0⟩], [], [], [("sighting:s1", ["m1", "m2"])], []⟩
        "a0" ⟨"u9", none, false, false⟩ ⟨"s1", "casino loan bitcoin", none⟩ 7 =
      (⟨[⟨"s1", false, 0, 0⟩],
        [⟨"casino loan bitcoin", "s1", some "u9", none, false, 7⟩], [],
        [("sighting:s1", ["m1", "m2"])], []⟩,
       [.newChatTo "m1" "s1" "casino loan bitcoin",
        .newChatTo "m2" "s1" "casino loan bitcoin"]) := by
  refine ⟨by decide, by decide, by decide, ?_⟩
  decide

/-- C1 amended: `handleChatMessage` enforces no membership requirement and
performs no abuse scoring: for any author (member of the room or not) and any
message content, a non-empty message of at most 1000 characters addressed to
an existing, non-hidden sighting is stored and broadcast to exactly the
sockets currently in the sighting room (the author receives it only if the
author happens to be a member). -/
theorem C1_chat_publish_amended (st : ServerState) (sockId : String)
    (user : SocketUser) (d : ChatMessageData) (now : Nat) (s : Sighting)
    (h1 : trimStr d.message ≠ "") (h2 : d.message.length ≤ 1000)
    (h3 : findSighting st.sightings d.sightingId = some s)
    (h4 : s.isHidden = false) :
    handleChatMessage st sockId user d now =
      ({ st with messages := st.messages ++ [newChatMsg user d now] },
        (roomMembers st.rooms (roomName d.sightingId)).map
          (fun m => .newChatTo m d.sightingId (newChatMsg user d now).message)) := by
  simp [handleChatMessage, h1, h3, h4, Nat.not_lt.mpr h2]

/-- Witness for C1 (amended): a non-member author's valid message is stored
and delivered to the two room members. -/
theorem C1_chat_publish_amended_witness :
    handleChatMessage
        ⟨[⟨"s1", false, 0, 0⟩], [], [], [("sighting:s1", ["m1", "m2"])], []⟩
        "a0" ⟨"u9", none, false, false⟩ ⟨"s1", "hello", none⟩ 7 =
      (⟨[⟨"s1", false, 0, 0⟩], [⟨"hello", "s1", some "u9", none, false, 7⟩], [],
        [("sighting:s1", ["m1", "m2"])], []⟩,
       [.newChatTo "m1" "s1" "hello", .newChatTo "m2" "s1" "hello"]) := by
  have h := C1_chat_publish_amended
    ⟨[⟨"s1", false, 0, 0⟩], [], [], [("sighting:s1", ["m1", "m2"])], []⟩
    "a0" ⟨"u9", none, false, false⟩ ⟨"s1", "hello", none⟩ 7 ⟨"s1", false, 0, 0⟩
    (by decide) (by decide) rfl rfl
  exact h

/-- The borderline submission used for C2: body
`{description: "loan!", title: "aaaaaaaaaaa"}`; its lowercased JSON carries the
keyword `loan` (+20) and an 11-character repeated run (+15), and the
5-character description adds the too-short increment (+10): content score 45,
just below the block threshold 50 and within 30 of it. -/
def spamReqSample : SpamRequest :=
  ⟨"1.2.3.4", "/", "\x7b\"description\":\"loan!\",\"title\":\"aaaaaaaaaaa\"\x7d",
    some "loan!"⟩

/-- Eleven copies of the borderline submission from one ip, one minute apart,
all inside one hour and one hour-bucket. -/
def spamSeqSample : List (SpamRequest × Nat) :=
  (List.range 11).map (fun i => (spamReqSample, 7200000000 + i * 60000))

/-- C2 counterexample: the content score is borderline (45, below the block
threshold 50 but within the +30 frequency increment of it), yet the 11th of
11 submissions in one hour from one key is allowed, not rejected — the
frequency check counts `SubmissionLog` rows, and the upsert keyed by
`(ipAddress, action, windowStart)` collapses all 11 submissions into a single
row, so the `> 5` row test never fires. (The 9th is allowed, as the claim
says.) -/
theorem C2_spam_frequency_counterexample :
    contentScore spamReqSample = 45 ∧ contentScore spamReqSample < 50 ∧
    50 ≤ contentScore spamReqSample + 30 ∧
    (runSpamSeq [] spamSeqSample).2.get? 8 = some false ∧
    (runSpamSeq [] spamSeqSample).2.get? 10 = some false := by
  decide

/-- C2 amended: all 11 borderline submissions are allowed, the 9th and the
11th included: the log aggregates into one row (final count 11), the
recent-row count never exceeds 5, so no +30 frequency increment is applied
and every decision reduces to the content score 45 < 50. -/
theorem C2_spam_frequency_amended :
    (runSpamSeq [] spamSeqSample).2 = List.replicate 11 false ∧
    (runSpamSeq [] spamSeqSample).1 =
      [⟨"1.2.3.4", "/", 7200000000, 11, 7200000000⟩] := by
  decide

/-- C5 counterexample: (i) an anonymous connection sending in-range
coordinates (10, 20) is ignored silently — nothing stored, no acknowledgement
and no error; (ii) an authenticated connection sending a `NaN` latitude
passes the range check (every comparison against `NaN` is false) and the
`NaN` is stored and acknowledged instead of being rejected. -/
theorem C5_location_update_counterexample :
    ((-90 : ℚ) ≤ 10 ∧ (10 : ℚ) ≤ 90 ∧ (-180 : ℚ) ≤ 20 ∧ (20 : ℚ) ≤ 180) ∧
    handleLocationUpdate ⟨[], [], [⟨"u1", true, true, none, none, 50⟩], [], []⟩
        "a1" ⟨"anonymous_a1", none, true, false⟩ (.num 10) (.num 20) [] =
      (⟨[], [], [⟨"u1", true, true, none, none, 50⟩], [], []⟩, []) ∧
    handleLocationUpdate ⟨[], [], [⟨"u2", false, true, none, none, 50⟩], [], []⟩
        "a2" ⟨"u2", none, false, false⟩ .nan (.num 20) [] =
      (⟨[], [], [⟨"u2", false, true, some .nan, some (.num 20), 50⟩], [], []⟩,
       [.locationAckTo "a2" .nan (.num 20)]) := by
  refine ⟨by norm_num, ?_, ?_⟩ <;> decide

/-- C5 amended: only non-anonymous connections are processed (anonymous ones
are ignored with no store, no ack and no error). For a non-anonymous
connection, finite in-range coordinates are stored as the user's last-known
location and acknowledged; a non-number-typed value or a finite value outside
the range draws the validation error with nothing stored; a `NaN` coordinate,
however, passes the range check and is stored. -/
theorem C5_location_update_amended (st : ServerState) (sockId : String)
    (user : SocketUser) (nearby : List SEvent)
    (hA : user.isAnonymous = false) :
    (∀ la lo : ℚ, -90 ≤ la → la ≤ 90 → -180 ≤ lo → lo ≤ 180 →
        handleLocationUpdate st sockId user (.num la) (.num lo) nearby =
          ({ st with users := updateUserLoc st.users user.id (.num la) (.num lo) },
            nearby ++ [.locationAckTo sockId (.num la) (.num lo)])) ∧
    (∀ la lo : JSNum, (isNumberType la = false ∨ isNumberType lo = false ∨
          (∃ q, la = .num q ∧ (q < -90 ∨ 90 < q)) ∨
          (∃ q, lo = .num q ∧ (q < -180 ∨ 180 < q))) →
        handleLocationUpdate st sockId user la lo nearby =
          (st, [.errorTo sockId "Invalid coordinates"])) ∧
    (∀ lo : ℚ, -180 ≤ lo → lo ≤ 180 →
        handleLocationUpdate st sockId user .nan (.num lo) nearby =
          ({ st with users := updateUserLoc st.users user.id .nan (.num lo) },
            nearby ++ [.locationAckTo sockId .nan (.num lo)])) := by
  refine ⟨?_, ?_, ?_⟩
  · intro la lo h1 h2 h3 h4
    simp [handleLocationUpdate, hA, isNumberType, jlt, jgt,
      not_lt.mpr h1, not_lt.mpr h2, not_lt.mpr h3, not_lt.mpr h4]
  · intro la lo h
    rcases h with h | h | ⟨q, rfl, hq | hq⟩ | ⟨q, rfl, hq | hq⟩
    · simp [handleLocationUpdate, hA, h]
    · simp [handleLocationUpdate, hA, h]
    · simp [handleLocationUpdate, hA, isNumberType, jlt, jgt, hq]
    · simp [handleLocationUpdate, hA, isNumberType, jlt, jgt, hq]
    · simp [handleLocationUpdate, hA, isNumberType, jlt, jgt, hq]
    · simp [handleLocationUpdate, hA, isNumberType, jlt, jgt, hq]
  · intro lo h1 h2
    simp [handleLocationUpdate, hA, isNumberType, jlt, jgt,
      not_lt.mpr h1, not_lt.mpr h2]

/-- Witness for C5 (amended): a registered user's in-range coordinates are
stored and acknowledged. -/
theorem C5_location_update_amended_witness :
    handleLocationUpdate ⟨[], [], [⟨"u2", false, true, none, none, 50⟩], [], []⟩
        "a2" ⟨"u2", none, false, false⟩ (.num 10) (.num 20) [] =
      (⟨[], [], [⟨"u2", false, true, some (.num 10), some (.num 20), 50⟩], [], []⟩,
       [.locationAckTo "a2" (.num 10) (.num 20)]) := by
  have h := (C5_location_update_amended
    ⟨[], [], [⟨"u2", false, true, none, none, 50⟩], [], []⟩
    "a2" ⟨"u2", none, false, false⟩ [] rfl).1 10 20
    (by norm_num) (by norm_num) (by norm_num) (by norm_num)
  exact h

/-- The loop guard of `notifyNearbyUsers` as a predicate: truthy stored
coordinates and computed distance within the candidate's radius. -/
def withinB (calcDist : ℚ → ℚ → ℚ → ℚ → ℚ) (s : Sighting) (u : User) : Bool :=
  (truthyNum u.lastLatitude && truthyNum u.lastLongitude) &&
    decide (calcDist s.latitude s.longitude (optNumVal u.lastLatitude)
      (optNumVal u.lastLongitude) ≤ u.notificationRadius)

/-- Per-connection deliveries of a push to each user's `user:<id>` room. -/
def deliveries (conns : String → List String) (s : Sighting) : List User → List SEvent
  | [] => []
  | u :: rest =>
    (conns u.id).map (fun c => SEvent.notificationTo c s.id) ++ deliveries conns s rest

/-- The users a pass over `users` notifies when every push succeeds. -/
def notifTargets (calcDist : ℚ → ℚ → ℚ → ℚ → ℚ) (s : Sighting) (users : List User) :
    List User :=
  (findNotifiable users).filter (withinB calcDist s)

theorem notifyLoop_const_true (calcDist : ℚ → ℚ → ℚ → ℚ → ℚ)
    (conns : String → List String) (s : Sighting) :
    ∀ (l : List User) (evts : List SEvent) (nt : List String) (c : Nat),
      notifyLoop calcDist (fun _ => true) conns s l evts nt c =
        ⟨evts ++ deliveries conns s (l.filter (withinB calcDist s)),
         nt ++ (l.filter (withinB calcDist s)).map (fun u => u.id),
         c + (l.filter (withinB calcDist s)).length⟩ := by
  intro l
  induction l with
  | nil => intro evts nt c; simp [notifyLoop, deliveries]
  | cons u l ih =>
    intro evts nt c
    by_cases ht : (truthyNum u.lastLatitude && truthyNum u.lastLongitude) = true
    · by_cases hw : calcDist s.latitude s.longitude (optNumVal u.lastLatitude)
          (optNumVal u.lastLongitude) ≤ u.notificationRadius
      · have hwB : withinB calcDist s u = true := by
          simp [withinB, ht, hw]
        simp only [notifyLoop]
        rw [if_pos ht, if_pos hw]
        simp only [if_true]
        rw [ih]
        simp [List.filter_cons, hwB, deliveries, List.append_assoc]
        omega
      · have hwB : withinB calcDist s u = false := by
          simp [withinB, hw]
        simp only [notifyLoop]
        rw [if_pos ht, if_neg hw, ih]
        simp [List.filter_cons, hwB]
    · have ht' : (truthyNum u.lastLatitude && truthyNum u.lastLongitude) = false := by
        cases hb : (truthyNum u.lastLatitude && truthyNum u.lastLongitude) <;> simp_all
      have hwB : withinB calcDist s u = false := by
        simp [withinB, ht']
      simp only [notifyLoop]
      rw [if_neg ht, ih]
      simp [List.filter_cons, hwB]

/-- C6 amended: when every push succeeds, a pass notifies exactly the
registered, notify-enabled candidates whose stored coordinates are non-null
and truthy (nonzero, non-`NaN`) and whose computed distance is at most their
radius; the deliveries go to every live connection of each such user while
the return value counts the users themselves, once each, independently of
how many connections they hold. Candidates whose stored latitude or
longitude is exactly `0` are skipped by the JS truthiness guard even when in
range. -/
theorem C6_notify_amended (calcDist : ℚ → ℚ → ℚ → ℚ → ℚ)
    (conns : String → List String) (users : List User) (s : Sighting) :
    notifyNearbyUsers calcDist (fun _ => true) conns users s =
      ⟨deliveries conns s (notifTargets calcDist s users),
       (notifTargets calcDist s users).map (fun u => u.id),
       (notifTargets calcDist s users).length⟩ := by
  unfold notifyNearbyUsers notifTargets
  rw [notifyLoop_const_true]
  simp

/-- C6 counterexample: a registered, notify-enabled candidate with known
stored coordinates `(0, 10)` sits exactly at the report's location (distance
0, radius 5), yet the pass pushes nothing and returns 0: the guard
`user.lastLatitude && user.lastLongitude` treats the stored latitude `0` as
falsy and skips the candidate before any distance is computed (so the
constant distance function used here is never consulted). -/
theorem C6_notify_counterexample :
    findNotifiable [⟨"u1", false, true, some (.num 0), some (.num 10), 5⟩] =
      [⟨"u1", false, true, some (.num 0), some (.num 10), 5⟩] ∧
    (0 : ℚ) ≤ 5 ∧
    notifyNearbyUsers (fun _ _ _ _ => 0) (fun _ => true) (fun uid => [uid ++ "c"])
        [⟨"u1", false, true, some (.num 0), some (.num 10), 5⟩]
        ⟨"s1", false, 0, 10⟩ =
      ⟨[], [], 0⟩ := by
  decide

theorem notifyLoop_fail_stops (calcDist : ℚ → ℚ → ℚ → ℚ → ℚ)
    (pushOk : String → Bool) (conns : String → List String) (s : Sighting)
    (bad : User) (post : List User)
    (hbadW : withinB calcDist s bad = true) (hbadP : pushOk bad.id = false) :
    ∀ (pre : List User) (evts : List SEvent) (nt : List String) (c : Nat),
      (∀ u ∈ pre.filter (withinB calcDist s), pushOk u.id = true) →
      notifyLoop calcDist pushOk conns s (pre ++ bad :: post) evts nt c =
        ⟨evts ++ deliveries conns s (pre.filter (withinB calcDist s)),
         nt ++ (pre.filter (withinB calcDist s)).map (fun u => u.id), 0⟩ := by
  intro pre
  induction pre with
  | nil =>
    intro evts nt c h
    have hparts := hbadW
    simp only [withinB, Bool.and_eq_true, decide_eq_true_eq] at hparts
    obtain ⟨⟨h1, h2⟩, hw⟩ := hparts
    have ht : (truthyNum bad.lastLatitude && truthyNum bad.lastLongitude) = true := by
      simp [h1, h2]
    simp only [List.nil_append, notifyLoop]
    rw [if_pos ht, if_pos hw, hbadP]
    simp [deliveries]
  | cons u pre ih =>
    intro evts nt c h
    have hrest : ∀ v ∈ pre.filter (withinB calcDist s), pushOk v.id = true := by
      intro v hv
      refine h v ?_
      by_cases hu : withinB calcDist s u = true
      · simp [List.filter_cons, hu, hv]
      · simp [List.filter_cons, hu, hv]
    by_cases ht : (truthyNum u.lastLatitude && truthyNum u.lastLongitude) = true
    · by_cases hw : calcDist s.latitude s.longitude (optNumVal u.lastLatitude)
          (optNumVal u.lastLongitude) ≤ u.notificationRadius
      · have hwB : withinB calcDist s u = true := by
          simp [withinB, ht, hw]
        have hp : pushOk u.id = true := by
          refine h u ?_
          simp [List.filter_cons, hwB]
        simp only [List.cons_append, notifyLoop, List.append_eq]
        rw [if_pos ht, if_pos hw, hp]
        simp only [if_true]
        rw [ih _ _ _ hrest]
        simp [List.filter_cons, hwB, deliveries, List.append_assoc]
      · have hwB : withinB calcDist s u = false := by
          simp [withinB, hw]
        simp only [List.cons_append, notifyLoop, List.append_eq]
        rw [if_pos ht, if_neg hw, ih _ _ _ hrest]
        simp [List.filter_cons, hwB]
    · have hwB : withinB calcDist s u = false := by
        have ht' : (truthyNum u.lastLatitude && truthyNum u.lastLongitude) = false := by
          cases hb : (truthyNum u.lastLatitude && truthyNum u.lastLongitude) <;> simp_all
        simp [withinB, ht']
      simp only [List.cons_append, notifyLoop, List.append_eq]
      rw [if_neg ht, ih _ _ _ hrest]
      simp [List.filter_cons, hwB]

/-- C7 amended: a failure while notifying one candidate aborts the remainder
of the pass — the single `try/catch` wrapping the loop catches the throw and
returns 0, so the deliveries already made stand, no later candidate is
evaluated or notified, and the reported count is 0. -/
theorem C7_notify_failure_aborts (calcDist : ℚ → ℚ → ℚ → ℚ → ℚ)
    (pushOk : String → Bool) (conns : String → List String) (users : List User)
    (s : Sighting) (pre post : List User) (bad : User)
    (hsplit : findNotifiable users = pre ++ bad :: post)
    (hpre : ∀ u ∈ pre.filter (withinB calcDist s), pushOk u.id = true)
    (hbadW : withinB calcDist s bad = true)
    (hbadP : pushOk bad.id = false) :
    notifyNearbyUsers calcDist pushOk conns users s =
      ⟨deliveries conns s (pre.filter (withinB calcDist s)),
       (pre.filter (withinB calcDist s)).map (fun u => u.id), 0⟩ := by
  unfold notifyNearbyUsers
  rw [hsplit, notifyLoop_fail_stops calcDist pushOk conns s bad post hbadW hbadP pre [] [] 0 hpre]
  simp

/-- C7 counterexample: two candidates are both within radius; the push for
the first one throws, and the second candidate — although eligible and in
range — receives nothing: the pass is aborted and returns 0. -/
theorem C7_notify_failure_counterexample :
    withinB (fun _ _ _ _ => 1) ⟨"s1", false, 1, 1⟩
        ⟨"u2", false, true, some (.num 1), some (.num 1), 5⟩ = true ∧
    notifyNearbyUsers (fun _ _ _ _ => 1) (fun uid => uid != "u1")
        (fun uid => [uid ++ "c"])
        [⟨"u1", false, true, some (.num 1), some (.num 1), 5⟩,
         ⟨"u2", false, true, some (.num 1), some (.num 1), 5⟩]
        ⟨"s1", false, 1, 1⟩ =
      ⟨[], [], 0⟩ := by
  decide

/-- Witness for C7 (amended): the first candidate is delivered, the failing
second candidate aborts the pass, the third is never notified, and the pass
returns 0. -/
theorem C7_notify_failure_aborts_witness :
    notifyNearbyUsers (fun _ _ _ _ => 1) (fun uid => uid != "u1")
        (fun uid => [uid ++ "c"])
        [⟨"u0", false, true, some (.num 1), some (.num 1), 5⟩,
         ⟨"u1", false, true, some (.num 1), some (.num 1), 5⟩,
         ⟨"u2", false, true, some (.num 1), some (.num 1), 5⟩]
        ⟨"s1", false, 1, 1⟩ =
      ⟨[SEvent.notificationTo "u0c" "s1"], ["u0"], 0⟩ := by
  have h := C7_notify_failure_aborts (fun _ _ _ _ => 1) (fun uid => uid != "u1")
    (fun uid => [uid ++ "c"])
    [⟨"u0", false, true, some (.num 1), some (.num 1), 5⟩,
     ⟨"u1", false, true, some (.num 1), some (.num 1), 5⟩,
     ⟨"u2", false, true, some (.num 1), some (.num 1), 5⟩]
    ⟨"s1", false, 1, 1⟩
    [⟨"u0", false, true, some (.num 1), some (.num 1), 5⟩]
    [⟨"u2", false, true, some (.num 1), some (.num 1), 5⟩]
    ⟨"u1", false, true, some (.num 1), some (.num 1), 5⟩
    (by decide) (by decide) (by decide) (by decide)
  exact h

/-- C8 counterexample: socket `"a"` disconnects while typing in the room of
sighting `s1`; the remaining members `"b"` and `"c"` receive no event at all
(in particular no typing-stop), while the member count drops from 3 to 2. -/
theorem C8_disconnect_counterexample :
    handleDisconnect
        ⟨[], [], [], [("sighting:s1", ["a", "b", "c"])], ["a", "b", "c"]⟩ "a" =
      (⟨[], [], [], [("sighting:s1", ["b", "c"])], ["b", "c"]⟩, []) ∧
    (roomMembers [("sighting:s1", ["a", "b", "c"])] (roomName "s1")).length = 3 ∧
    (roomMembers [("sighting:s1", ["b", "c"])] (roomName "s1")).length = 2 := by
  decide

theorem roomMembers_leaveAllRooms (rooms : List (String × List String))
    (sockId rn : String) :
    roomMembers (leaveAllRooms rooms sockId) rn = (roomMembers rooms rn).erase sockId := by
  induction rooms with
  | nil => simp [roomMembers, leaveAllRooms]
  | cons p rest ih =>
    by_cases hp : p.1 == rn
    · simp [roomMembers, leaveAllRooms, List.find?, hp]
    · simpa [roomMembers, leaveAllRooms, List.find?, hp] using ih

/-- C8 amended: on an abrupt disconnect the handler emits no event to anyone
(no typing-stop, no member-left); the room's member count still decrements by
exactly one, through Socket.IO's transport-level removal of the disconnected
socket from every room. -/
theorem C8_disconnect_amended (st : ServerState) (sockId rn : String)
    (hmem : sockId ∈ roomMembers st.rooms rn) :
    (handleDisconnect st sockId).2 = [] ∧
    (roomMembers (handleDisconnect st sockId).1.rooms rn).length =
      (roomMembers st.rooms rn).length - 1 := by
  refine ⟨rfl, ?_⟩
  show (roomMembers (leaveAllRooms st.rooms sockId) rn).length = _
  rw [roomMembers_leaveAllRooms]
  exact List.length_erase_of_mem hmem

/-- Witness for C8 (amended) at a concrete three-member room. -/
theorem C8_disconnect_amended_witness :
    (handleDisconnect
        ⟨[], [], [], [("sighting:s1", ["a", "b", "c"])], ["a", "b", "c"]⟩ "a").2 = [] ∧
    (roomMembers (handleDisconnect
        ⟨[], [], [], [("sighting:s1", ["a", "b", "c"])], ["a", "b", "c"]⟩ "a").1.rooms
      (roomName "s1")).length =
      (roomMembers [("sighting:s1", ["a", "b", "c"])] (roomName "s1")).length - 1 :=
  C8_disconnect_amended
    ⟨[], [], [], [("sighting:s1", ["a", "b", "c"])], ["a", "b", "c"]⟩ "a"
    (roomName "s1") (by decide)

theorem mem_recentMessages (msgs : List ChatMsg) (sid : String) (m : ChatMsg)
    (hm : m ∈ recentMessages msgs sid) :
    m ∈ msgs ∧ m.isHidden = false ∧ m.sightingId = sid := by
  have h1 : m ∈ (List.insertionSort newerOrSame
      (msgs.filter (fun m => m.sightingId == sid && !m.isHidden))).take 50 :=
    List.mem_reverse.mp hm
  have h2 : m ∈ List.insertionSort newerOrSame
      (msgs.filter (fun m => m.sightingId == sid && !m.isHidden)) :=
    List.take_subset _ _ h1
  have h3 : m ∈ msgs.filter (fun m => m.sightingId == sid && !m.isHidden) :=
    (List.perm_insertionSort newerOrSame _).mem_iff.mp h2
  have h4 := List.mem_filter.mp h3
  refine ⟨h4.1, ?_, ?_⟩
  · have := h4.2
    simp only [Bool.and_eq_true, beq_iff_eq, Bool.not_eq_true'] at this
    exact this.2
  · have := h4.2
    simp only [Bool.and_eq_true, beq_iff_eq, Bool.not_eq_true'] at this
    exact this.1

theorem recentMessages_sorted (msgs : List ChatMsg) (sid : String) :
    List.Pairwise (fun a b : ChatMsg => a.createdAt ≤ b.createdAt)
      (recentMessages msgs sid) := by
  unfold recentMessages
  rw [List.pairwise_reverse]
  exact List.Pairwise.sublist (List.take_sublist _ _)
    (List.sorted_insertionSort newerOrSame _)

theorem recentMessages_most_recent (msgs : List ChatMsg) (sid : String)
    (m : ChatMsg) (hm : m ∈ msgs) (hsid : m.sightingId = sid)
    (hhid : m.isHidden = false) (hnotin : m ∉ recentMessages msgs sid) :
    ∀ m2 ∈ recentMessages msgs sid, m.createdAt ≤ m2.createdAt := by
  intro m2 hm2
  have hml : m ∈ msgs.filter (fun m => m.sightingId == sid && !m.isHidden) :=
    List.mem_filter.mpr ⟨hm, by simp [hsid, hhid]⟩
  have hmsrt : m ∈ List.insertionSort newerOrSame
      (msgs.filter (fun m => m.sightingId == sid && !m.isHidden)) :=
    (List.perm_insertionSort newerOrSame _).mem_iff.mpr hml
  have hmtake : m ∉ (List.insertionSort newerOrSame
      (msgs.filter (fun m => m.sightingId == sid && !m.isHidden))).take 50 :=
    fun hc => hnotin (List.mem_reverse.mpr hc)
  have hpair : List.Pairwise newerOrSame (List.insertionSort newerOrSame
      (msgs.filter (fun m => m.sightingId == sid && !m.isHidden))) :=
    List.sorted_insertionSort newerOrSame _
  rw [← List.take_append_drop 50 (List.insertionSort newerOrSame
      (msgs.filter (fun m => m.sightingId == sid && !m.isHidden)))] at hmsrt hpair
  have hmdrop : m ∈ (List.insertionSort newerOrSame
      (msgs.filter (fun m => m.sightingId == sid && !m.isHidden))).drop 50 := by
    rcases List.mem_append.mp hmsrt with h | h
    · exact absurd h hmtake
    · exact h
  exact (List.pairwise_append.mp hpair).2.2 m2 (List.mem_reverse.mp hm2) m hmdrop

/-- C10: on every successful join, the `chat_history` payload sent to the
joiner holds at most 50 messages, only non-hidden messages of that sighting,
ordered oldest first; and the messages are the most recent ones — any
non-hidden message of the sighting left out is no newer than every message
included. -/
theorem C10_join_history (st : ServerState) (sockId : String) (user : SocketUser)
    (sid : String) (s : Sighting)
    (h1 : findSighting st.sightings sid = some s) (h2 : s.isHidden = false) :
    (∃ pre, (handleJoinSighting st sockId user sid).2 =
        pre ++ [SEvent.historyTo sockId sid (recentMessages st.messages sid)]) ∧
    (recentMessages st.messages sid).length ≤ 50 ∧
    (∀ m ∈ recentMessages st.messages sid, m.isHidden = false ∧ m.sightingId = sid) ∧
    List.Pairwise (fun a b : ChatMsg => a.createdAt ≤ b.createdAt)
      (recentMessages st.messages sid) ∧
    (∀ m ∈ st.messages, m.sightingId = sid → m.isHidden = false →
      m ∉ recentMessages st.messages sid →
      ∀ m2 ∈ recentMessages st.messages sid, m.createdAt ≤ m2.createdAt) := by
  refine ⟨?_, ?_, ?_, recentMessages_sorted st.messages sid, ?_⟩
  · refine ⟨((roomMembers st.rooms (roomName sid)).filter (fun m => m != sockId)).map
      (fun m => SEvent.userJoinedTo m sid user.id), ?_⟩
    simp [handleJoinSighting, h1, h2]
  · simp only [recentMessages, List.length_reverse, List.length_take]
    exact min_le_left _ _
  · intro m hm
    have := mem_recentMessages st.messages sid m hm
    exact ⟨this.2.1, this.2.2⟩
  · intro m hm hsid hhid hnotin
    exact recentMessages_most_recent st.messages sid m hm hsid hhid hnotin

/-- Witness for C10: joining a live sighting with three stored messages (one
hidden) yields a history of the two visible ones, oldest first. -/
theorem C10_join_history_witness :
    (∃ pre, (handleJoinSighting
        ⟨[⟨"s1", false, 0, 0⟩],
         [⟨"m newest", "s1", none, some "x", false, 30⟩,
          ⟨"m hidden", "s1", none, some "x", true, 20⟩,
          ⟨"m oldest", "s1", none, some "x", false, 10⟩],
         [], [("sighting:s1", ["b"])], []⟩ "a0" ⟨"u9", none, false, false⟩ "s1").2 =
      pre ++ [SEvent.historyTo "a0" "s1"
        (recentMessages
          [⟨"m newest", "s1", none, some "x", false, 30⟩,
           ⟨"m hidden", "s1", none, some "x", true, 20⟩,
           ⟨"m oldest", "s1", none, some "x", false, 10⟩] "s1")]) ∧
    (recentMessages
        [⟨"m newest", "s1", none, some "x", false, 30⟩,
         ⟨"m hidden", "s1", none, some "x", true, 20⟩,
         ⟨"m oldest", "s1", none, some "x", false, 10⟩] "s1").length ≤ 50 :=
  ⟨(C10_join_history
      ⟨[⟨"s1", false, 0, 0⟩],
       [⟨"m newest", "s1", none, some "x", false, 30⟩,
        ⟨"m hidden", "s1", none, some "x", true, 20⟩,
        ⟨"m oldest", "s1", none, some "x", false, 10⟩],
       [], [("sighting:s1", ["b"])], []⟩ "a0" ⟨"u9", none, false, false⟩ "s1"
      ⟨"s1", false, 0, 0⟩ rfl rfl).1,
   (C10_join_history
      ⟨[⟨"s1", false, 0, 0⟩],
       [⟨"m newest", "s1", none, some "x", false, 30⟩,
        ⟨"m hidden", "s1", none, some "x", true, 20⟩,
        ⟨"m oldest", "s1", none, some "x", false, 10⟩],
       [], [("sighting:s1", ["b"])], []⟩ "a0" ⟨"u9", none, false, false⟩ "s1"
      ⟨"s1", false, 0, 0⟩ rfl rfl).2.1⟩
